import Mathlib

/-!
Shallow embedding of the core of `st_jj_v1.py` (quote-data acquisition layer,
gateway connection probing, and the technical-signal engine), together with
theorems settling the behavioural claims about it.

Conventions of the embedding:
* Python `dict`s become association lists (`List (key × value)`) with
  insert-or-overwrite (`dictInsert`) and `List.lookup`.
* Wall-clock instants and prices are rationals (`ℚ`).
* A call into an external API that may raise is modelled by an `Option`-valued
  environment field: `none` means the call raised, `some x` means it returned `x`.
* pandas Series are modelled as `List ℚ`; the engine's claims only exercise
  fully defined (NaN-free) series, on which `dropna()` is the identity.
-/

namespace ShareCode

/-- Insert-or-overwrite on an association list: the model of a Python
`d[k] = v` dict assignment. -/
def dictInsert {α β : Type} [BEq α] (k : α) (v : β) (d : List (α × β)) :
    List (α × β) :=
  (k, v) :: d.filter (fun p => p.1 != k)

/-! ## Quote service data model (`MyQuantClient`) -/

/-- One per-symbol realtime data record as stored in `data_cache` / returned by
`get_realtime_data`: the dict with keys 价格 (price), 涨跌幅 (change percent),
换手率 (turnover rate), 时间 (time string) and 数据源 (the data-source tag that
`get_realtime_data` stamps on every freshly fetched record). -/
structure QuoteData where
  price : ℚ
  changePct : ℚ
  turnover : ℚ
  time : String
  source : String
deriving DecidableEq, Repr

/-- The mutable fields of `MyQuantClient` that the quote service touches:
`connected`, `data_cache`, `cache_time` and `cache_expiry` (initialised to 5). -/
structure ClientState where
  connected : Bool
  dataCache : List (String × QuoteData)
  cacheTime : List (String × ℚ)
  cacheExpiry : ℚ
deriving DecidableEq, Repr

/-- The module-level and external-world inputs of one `get_realtime_data` call:
whether the AKShare and MyQuant modules imported, and what each provider call
would return (`none` models the call raising an exception). -/
structure FetchEnv where
  akshareAvailable : Bool
  myquantAvailable : Bool
  akshareResult : Option (List (String × QuoteData))
  myquantResult : Option (List (String × QuoteData))
deriving DecidableEq, Repr

/-- `MyQuantClient.is_connected`: `self.connected and MYQUANT_AVAILABLE`. -/
def is_connected (st : ClientState) (env : FetchEnv) : Bool :=
  st.connected && env.myquantAvailable

/-- One provider invocation made during a `get_realtime_data` call, with the
batch of symbols it was handed. -/
inductive ProviderCall where
  | akshare (syms : List String)
  | myquant (syms : List String)
deriving DecidableEq, Repr

/-- `symbol.split(".")[0] if "." in symbol else symbol`: the characters before
the first dot, or the whole string when it has no dot. -/
def cleanCode (symbol : String) : String :=
  String.mk (symbol.data.takeWhile (fun c => c != '.'))

/-- One iteration of the cache-partition loop of `get_realtime_data`: a symbol
either hits the fresh cache (goes into the result) or is appended to the
needs-fetch list. -/
def cacheStep (st : ClientState) (current_time : ℚ) (force_refresh : Bool)
    (acc : List (String × QuoteData) × List String) (symbol : String) :
    List (String × QuoteData) × List String :=
  let code := cleanCode symbol
  if force_refresh then (acc.1, acc.2 ++ [symbol])
  else
    match st.dataCache.lookup code, st.cacheTime.lookup code with
    | some data, some t =>
        if current_time - t < st.cacheExpiry then (dictInsert code data acc.1, acc.2)
        else (acc.1, acc.2 ++ [symbol])
    | some _, none => (acc.1, acc.2 ++ [symbol])
    | none, _ => (acc.1, acc.2 ++ [symbol])

/-- The cache-partition loop of `get_realtime_data` over the whole symbol list. -/
def partitionCache (st : ClientState) (current_time : ℚ) (force_refresh : Bool)
    (symbols : List String) : List (String × QuoteData) × List String :=
  symbols.foldl (cacheStep st current_time force_refresh) ([], [])

/-- The AKShare (primary) leg: returns (fetched rows, akshare_success flag,
provider invocations made). Not available ⇒ not called; call raising ⇒ empty
rows and no success; success flag is set only on a non-empty return. -/
def akshareFetch (env : FetchEnv) (need : List String) :
    List (String × QuoteData) × Bool × List ProviderCall :=
  if env.akshareAvailable then
    match env.akshareResult with
    | some d => (d, !d.isEmpty, [ProviderCall.akshare need])
    | none => ([], false, [ProviderCall.akshare need])
  else ([], false, [])

/-- One iteration of the cache/result write-back loop: stamp the data-source
tag on the fetched record, store it in `data_cache`, record the fetch time in
`cache_time`, and merge it into the result. -/
def cacheWriteStep (src : String) (current_time : ℚ)
    (acc : List (String × QuoteData) × ClientState) (cd : String × QuoteData) :
    List (String × QuoteData) × ClientState :=
  let d : QuoteData := { cd.2 with source := src }
  (dictInsert cd.1 d acc.1,
   { acc.2 with
      dataCache := dictInsert cd.1 d acc.2.dataCache,
      cacheTime := dictInsert cd.1 current_time acc.2.cacheTime })

/-- The outcome of one `get_realtime_data` call: the returned mapping, the
client state after the call, and the provider invocations that were made. -/
structure FetchOutcome where
  result : List (String × QuoteData)
  state : ClientState
  calls : List ProviderCall
deriving DecidableEq, Repr

/-- `MyQuantClient.get_realtime_data(symbols, force_refresh)`: partition into
cache hits and needs-fetch, return straight from cache when nothing needs a
fetch, otherwise try AKShare first, fall back to MyQuant only when AKShare
yielded nothing and the gateway is connected, and write every fetched record
back into the cache stamped with its source and the call time. -/
def get_realtime_data (st : ClientState) (env : FetchEnv) (current_time : ℚ)
    (symbols : List String) (force_refresh : Bool) : FetchOutcome :=
  if symbols.isEmpty then ⟨[], st, []⟩ else
  let p := partitionCache st current_time force_refresh symbols
  if p.2.isEmpty then ⟨p.1, st, []⟩ else
  let ak := akshareFetch env p.2
  let fetched_calls :=
    if !ak.2.1 && ak.1.isEmpty && is_connected st env then
      match env.myquantResult with
      | some d => (d, ak.2.2 ++ [ProviderCall.myquant p.2])
      | none => ([], ak.2.2 ++ [ProviderCall.myquant p.2])
    else (ak.1, ak.2.2)
  let src := if ak.2.1 then "AKShare" else "MyQuant"
  let upd := fetched_calls.1.foldl (cacheWriteStep src current_time) (p.1, st)
  ⟨upd.1, upd.2, fetched_calls.2⟩

/-- `MyQuantClient.clear_cache`. -/
def clear_cache (st : ClientState) : ClientState :=
  { st with dataCache := [], cacheTime := [] }

/-- `Bool`: does a call list contain a MyQuant (fallback) invocation? -/
def callsMyquant (calls : List ProviderCall) : Bool :=
  calls.any (fun c => match c with | ProviderCall.myquant _ => true | _ => false)

/-- The rows the primary (AKShare) provider yields in a given environment:
empty when the module is unavailable or the call raises. -/
def primaryRows (env : FetchEnv) : List (String × QuoteData) :=
  if env.akshareAvailable then env.akshareResult.getD [] else []

/-! ## Bounded task runner (`test_api_call`, defined inside `connect`) -/

/-- What the operation handed to `test_api_call` would do were it run to
completion: whether it returns a value or raises. -/
inductive OpOutcome (α ε : Type) where
  | ok (v : α)
  | raises (e : ε)
deriving DecidableEq, Repr

/-- An operation together with its running time. -/
structure Operation (α ε : Type) where
  duration : ℚ
  outcome : OpOutcome α ε
deriving DecidableEq, Repr

/-- The second component of the pair `test_api_call` returns: the worker's
`result[0]` on success, its `error[0]` when the operation raised, and the
Python `None` when the bounded wait expired. -/
inductive TAPayload (α ε : Type) where
  | none
  | value (v : α)
  | err (e : ε)
deriving DecidableEq, Repr

/-- `test_api_call(api_func, timeout)`: run the operation on a daemon worker
thread and wait at most `timeout` for its completion event; return
`(False, None)` when it did not complete in time, `(False, error)` when it
raised in time, `(True, result)` when it returned in time. -/
def test_api_call {α ε : Type} (op : Operation α ε) (timeout : ℚ) :
    Bool × TAPayload α ε :=
  if op.duration ≤ timeout then
    match op.outcome with
    | OpOutcome.ok v => (true, TAPayload.value v)
    | OpOutcome.raises e => (false, TAPayload.err e)
  else (false, TAPayload.none)

/-! ## Gateway connection (`MyQuantClient.connect`) -/

/-- The probe-step outcomes and worker wall-clock of one `connect()` attempt.
`accountStep` is recorded for completeness: its failure only logs a warning
and does not abort the probe sequence. -/
structure ConnectEnv where
  myquantAvailable : Bool
  tokenStep : Bool
  accountStep : Bool
  canarySuccess : Bool
  canaryData : Option (List Unit)
  cashStep : Bool
  workerDuration : ℚ
deriving DecidableEq, Repr

/-- The canary-quote test `success and data is not None and len(data) > 0`. -/
def canaryOk (env : ConnectEnv) : Bool :=
  env.canarySuccess &&
    (match env.canaryData with
     | some l => decide (0 < l.length)
     | none => false)

/-- Whether `connect_worker` sets the `connection_success` event: the token
step must succeed (otherwise the worker returns early), and then either the
canary live quote or the cash-balance probe must report success. -/
def connection_success (env : ConnectEnv) : Bool :=
  env.tokenStep && (canaryOk env || env.cashStep)

/-- The reason attached to each exit path of `connect()`: explicit success,
the 4-second overall timer having fired (terminal probably not running), a
probe failure within the deadline (bad credentials), or the MyQuant module
being unavailable. -/
inductive ConnectReason where
  | success
  | timedOut
  | probeFailed
  | unavailable
deriving DecidableEq, Repr

/-- The observable outcome of `connect()`: its boolean return value, the
`self.connected` field afterwards, and which exit path reported. -/
structure ConnectOutcome where
  result : Bool
  connected : Bool
  reason : ConnectReason
deriving DecidableEq, Repr

/-- `MyQuantClient.connect()`: returns False leaving `connected` untouched
when the MyQuant module is unavailable; otherwise reports success iff the
worker signalled `connection_success` (checked first, so a late success still
wins), and on failure distinguishes the overall 4-second timer having fired
(`timeout_occurred`) from a plain probe failure. -/
def connect (prevConnected : Bool) (env : ConnectEnv) : ConnectOutcome :=
  if !env.myquantAvailable then ⟨false, prevConnected, ConnectReason.unavailable⟩
  else if connection_success env then ⟨true, true, ConnectReason.success⟩
  else if 4 ≤ env.workerDuration then ⟨false, false, ConnectReason.timedOut⟩
  else ⟨false, false, ConnectReason.probeFailed⟩

/-- `is_connected()` read after a `connect()` attempt: the stored `connected`
flag conjoined with module availability. -/
def is_connected_after (o : ConnectOutcome) (env : ConnectEnv) : Bool :=
  o.connected && env.myquantAvailable

/-! ## MyQuant fallback internals (`_get_realtime_data_from_myquant`) -/

/-- Python `round` with no digits argument: round-half-to-even. -/
def pyRound (x : ℚ) : ℤ :=
  if x - ⌊x⌋ < 1 / 2 then ⌊x⌋
  else if x - ⌊x⌋ > 1 / 2 then ⌊x⌋ + 1
  else if ⌊x⌋ % 2 = 0 then ⌊x⌋ else ⌊x⌋ + 1

/-- Python `round(x, 2)`. -/
def round2 (x : ℚ) : ℚ := (pyRound (x * 100) : ℚ) / 100

/-- The history answers available for one symbol when the MyQuant fallback
derives its change-percent: the closes returned by the dated `gm.history`
query for yesterday, and by the widening `gm.history_n(count=3)` query
(`none` models the call raising, which the source turns into 0). -/
structure HistEnv where
  histYesterday : Option (List ℚ)
  histN3 : Option (List ℚ)
deriving DecidableEq, Repr

/-- The change-percent derivation of `_get_realtime_data_from_myquant` for one
symbol: baseline is the last close of the dated yesterday query; only when
that query returns empty, the lookup widens to the last three sessions and
uses the second-most-recent close; with a positive baseline and positive
current price the change-percent is `(price − baseline)/baseline * 100`
rounded to two decimals, and in every other case it stays 0. -/
def compute_change_pct (env : HistEnv) (current_price : ℚ) : ℚ :=
  match env.histYesterday with
  | none => 0
  | some hist =>
    if hist.length > 0 then
      match hist.getLast? with
      | some pre_close =>
        if pre_close > 0 ∧ current_price > 0 then
          round2 ((current_price - pre_close) / pre_close * 100)
        else 0
      | none => 0
    else
      match env.histN3 with
      | none => 0
      | some histN =>
        if 2 ≤ histN.length then
          match histN.dropLast.getLast? with
          | some pre_close =>
            if pre_close > 0 ∧ current_price > 0 then
              round2 ((current_price - pre_close) / pre_close * 100)
            else 0
          | none => 0
        else 0

/-- `s.startswith(p)` on Python strings, by characters. -/
def strStarts (s p : String) : Bool :=
  s.data.take p.data.length == p.data

/-- The Shanghai code-start list of `_get_realtime_data_from_myquant`. -/
def shse_starts : List String := ["60", "68", "11", "12", "13"]

/-- The Shenzhen code-start list of `_get_realtime_data_from_myquant`. -/
def szse_starts : List String := ["00", "30", "12", "15", "16", "18"]

/-- The per-symbol code normalization of `_get_realtime_data_from_myquant`:
strip any dotted suffix, keep only 6-digit numeric codes, test the Shanghai
start list first and the Shenzhen list second, and silently skip (`none`)
codes matching neither. -/
def gm_symbol_of_code (symbol : String) : Option String :=
  let clean_code := cleanCode symbol
  if clean_code.data.length = 6 ∧ clean_code.data.all Char.isDigit then
    if shse_starts.any (fun p => strStarts clean_code p) then
      some ("SHSE." ++ clean_code)
    else if szse_starts.any (fun p => strStarts clean_code p) then
      some ("SZSE." ++ clean_code)
    else none
  else none

/-! ## Signal engine (`SignalEngine`) -/

/-- An indicator or price series. pandas Series are modelled NaN-free (the
engine's MA path applies `dropna()` before use, the identity here). -/
abbrev Series := List ℚ

/-- `series.iloc[-1]`; `none` models the IndexError on an empty series. -/
def ilocLast (s : Series) : Option ℚ := s.getLast?

/-- `series.iloc[-2]`. -/
def ilocPrev (s : Series) : Option ℚ := s.dropLast.getLast?

/-- The indicator dict handed to the engine: which of the keys the engine
reads are present, and their series. -/
structure IndicatorSet where
  MA5 : Option Series
  MA10 : Option Series
  MA20 : Option Series
  MA60 : Option Series
  MACD : Option Series
  MACD_Signal : Option Series
  RSI : Option Series
deriving DecidableEq, Repr

/-- The `data` frame as the engine sees it: only the Close column is read. -/
structure MarketData where
  Close : Option Series
deriving DecidableEq, Repr

/-- One entry of `self.results`: `(symbol, name, idx, score)`. -/
abbrev SignalRec := String × String × Int × ℚ

/-- `self.label_map`: label and severity score per signal kind. -/
def label_map : List (String × (String × ℚ)) :=
  [("ma5_bottom_turn", ("MA5 底部拐点", 6/10)),
   ("ma10_bottom_turn", ("MA10 底部拐点", 7/10)),
   ("ma20_bottom_turn", ("MA20 底部拐点", 8/10)),
   ("ma60_bottom_turn", ("MA60 底部拐点", 9/10)),
   ("ma5_top_turn", ("MA5 顶部拐点", 6/10)),
   ("ma10_top_turn", ("MA10 顶部拐点", 7/10)),
   ("ma20_top_turn", ("MA20 顶部拐点", 8/10)),
   ("ma60_top_turn", ("MA60 顶部拐点", 9/10)),
   ("ma_multi_bull", ("均线多头排列", 1)),
   ("ma_multi_bear", ("均线空头排列", 1)),
   ("macd_golden_cross", ("MACD金叉", 8/10)),
   ("macd_death_cross", ("MACD死叉", 8/10)),
   ("macd_divergence_bull", ("MACD底背离", 9/10)),
   ("macd_divergence_bear", ("MACD顶背离", 9/10)),
   ("rsi_oversold", ("RSI超卖", 7/10)),
   ("rsi_overbought", ("RSI超买", 7/10)),
   ("rsi_divergence_bull", ("RSI底背离", 8/10)),
   ("rsi_divergence_bear", ("RSI顶背离", 8/10)),
   ("volume_surge", ("成交量放大", 6/10)),
   ("volume_shrink", ("成交量萎缩", 5/10)),
   ("support_bounce", ("支撑位反弹", 7/10)),
   ("resistance_break", ("阻力位突破", 8/10))]

/-- `self.label_map.get(name, (name, 0))[1]`. -/
def labelScore (name : String) : ℚ :=
  ((label_map.lookup name).getD (name, 0)).2

/-- `np.gradient` on a 3-point window: one-sided differences at the two ends,
central difference in the middle. -/
def npGradient3 (a b c : ℚ) : ℚ × ℚ × ℚ := (b - a, (c - a) / 2, c - b)

/-- The direction argument of `detect_ma_turning_point`. -/
inductive MADirection where
  | bottom
  | top
deriving DecidableEq, Repr

/-- `SignalEngine.detect_ma_turning_point(ma_values, direction)` (the unused
`high`/`low` arguments are omitted): look at the last three points, compute
their `np.gradient`, gate on the relative magnitude of the last step
exceeding the amplitude threshold, then test the sign pattern of the last two
gradient values. -/
def detect_ma_turning_point (amplitude_threshold : ℚ) (ma_values : Series)
    (direction : MADirection) : Bool × Int :=
  if ma_values.length < 3 then (false, -1)
  else
    match ma_values.drop (ma_values.length - 3) with
    | [a, b, c] =>
      let grads := npGradient3 a b c
      let amplitude := if b ≠ 0 then |(c - b) / b| else 0
      if amplitude ≤ amplitude_threshold then (false, -1)
      else if direction = MADirection.bottom ∧ grads.2.1 < 0 ∧ grads.2.2 > 0 then
        (true, (ma_values.length : Int) - 1)
      else if direction = MADirection.top ∧ grads.2.1 > 0 ∧ grads.2.2 < 0 then
        (true, (ma_values.length : Int) - 1)
      else (false, -1)
    | _ => (false, -1)

/-- `SignalEngine.detect_ma_alignment`: strict MA5 > MA10 > MA20 at the last
bar is a bull alignment, the strict reverse a bear alignment, anything else no
signal; `none` models the `iloc[-1]` IndexError on an empty MA10/MA20. -/
def detect_ma_alignment (ind : IndicatorSet) : Option (Bool × String × Int) :=
  match ind.MA5, ind.MA10, ind.MA20 with
  | some ma5, some ma10, some ma20 =>
    if ma5.length < 1 then some (false, "", -1)
    else
      match ilocLast ma5, ilocLast ma10, ilocLast ma20 with
      | some a, some b, some c =>
        if a > b ∧ b > c then some (true, "ma_multi_bull", (ma5.length : Int) - 1)
        else if a < b ∧ b < c then some (true, "ma_multi_bear", (ma5.length : Int) - 1)
        else some (false, "", -1)
      | _, _, _ => none
  | _, _, _ => some (false, "", -1)

/-- `f"MA{period}"` lookups in the indicator dict. -/
def getMA (ind : IndicatorSet) (period : Nat) : Option Series :=
  if period = 5 then ind.MA5
  else if period = 10 then ind.MA10
  else if period = 20 then ind.MA20
  else if period = 60 then ind.MA60
  else none

/-- The MA windows `_detect_ma_signals` iterates. -/
def ma_periods : List Nat := [5, 10, 20, 60]

/-- The signal name `f"ma{period}_{direction}_turn"`. -/
def turnName (period : Nat) (direction : MADirection) : String :=
  "ma" ++ toString period ++
    (match direction with
     | MADirection.bottom => "_bottom_turn"
     | MADirection.top => "_top_turn")

/-- The body of the per-direction loop of `_detect_ma_signals`: a direction
is attempted only while the matching dominant trend holds, and appends one
turning-point record when the detector fires. -/
def maDirSignal (amplitude_threshold : ℚ) (series : Series) (bull bear : Bool)
    (symbol : String) (period : Nat) (direction : MADirection) : List SignalRec :=
  if ((direction == MADirection.bottom) && bull) ||
      ((direction == MADirection.top) && bear) then
    let name := turnName period direction
    let r := detect_ma_turning_point amplitude_threshold series direction
    if r.1 then [(symbol, name, r.2, labelScore name)] else []
  else []

/-- The contribution of one MA window to `_detect_ma_signals`: needs the
window present with at least six values, then tries bottom before top. -/
def maPeriodSignals (amplitude_threshold : ℚ) (ind : IndicatorSet)
    (bull bear : Bool) (symbol : String) (period : Nat) : List SignalRec :=
  match getMA ind period with
  | some series =>
    if 6 ≤ series.length then
      maDirSignal amplitude_threshold series bull bear symbol period MADirection.bottom ++
        maDirSignal amplitude_threshold series bull bear symbol period MADirection.top
    else []
  | none => []

/-- `SignalEngine._detect_ma_signals`: the appends of all four MA windows in
iteration order. -/
def detect_ma_signals (amplitude_threshold : ℚ) (ind : IndicatorSet)
    (bull bear : Bool) (symbol : String) : List SignalRec :=
  (ma_periods.map (maPeriodSignals amplitude_threshold ind bull bear symbol)).flatten

/-- `SignalEngine._detect_macd_signals`: nothing unless both MACD series are
present and the MACD series has at least three points; then compare
`MACD − Signal` at the last two bars: from ≤ 0 to > 0 is a golden cross, from
≥ 0 to < 0 a death cross, at the last index. `none` models an `iloc`
IndexError on a too-short signal series. -/
def detect_macd_signals (ind : IndicatorSet) (symbol : String) :
    Option (List SignalRec) :=
  match ind.MACD, ind.MACD_Signal with
  | some macd, some signal =>
    if macd.length < 3 then some []
    else
      match ilocLast macd, ilocLast signal, ilocPrev macd, ilocPrev signal with
      | some m1, some s1, some m2, some s2 =>
        let current_cross := m1 - s1
        let prev_cross := m2 - s2
        if prev_cross ≤ 0 ∧ current_cross > 0 then
          some [(symbol, "macd_golden_cross", (macd.length : Int) - 1,
                 labelScore "macd_golden_cross")]
        else if prev_cross ≥ 0 ∧ current_cross < 0 then
          some [(symbol, "macd_death_cross", (macd.length : Int) - 1,
                 labelScore "macd_death_cross")]
        else some []
      | _, _, _, _ => none
  | _, _ => some []

/-- `SignalEngine._detect_rsi_signals`: RSI above 70 is overbought, below 30
oversold, needing at least three points. -/
def detect_rsi_signals (ind : IndicatorSet) (symbol : String) :
    Option (List SignalRec) :=
  match ind.RSI with
  | some rsi =>
    if rsi.length < 3 then some []
    else
      match ilocLast rsi with
      | some current =>
        if current > 70 then
          some [(symbol, "rsi_overbought", (rsi.length : Int) - 1,
                 labelScore "rsi_overbought")]
        else if current < 30 then
          some [(symbol, "rsi_oversold", (rsi.length : Int) - 1,
                 labelScore "rsi_oversold")]
        else some []
      | none => none
  | none => some []

/-- The dominant-trend computation at the top of `run_all_strategies`:
`close.iloc[-1] > ma60.iloc[-1] if ma60 is not None else False` and its `<`
mirror; `none` models the IndexError on an empty series. -/
def mainTrend (close : Series) (ma60opt : Option Series) : Option (Bool × Bool) :=
  match ma60opt with
  | some ma60 =>
    match ilocLast close, ilocLast ma60 with
    | some c, some m => some (decide (c > m), decide (c < m))
    | _, _ => none
  | none => some (false, false)

/-- `SignalEngine.run_all_strategies(data, indicators, symbol)`: clear the
results, bail out when the data has no Close column, read the dominant trend
off MA60 versus the last close, then append the MA turning-point, MACD and
RSI detections in order. `none` models an uncaught `iloc` IndexError. -/
def run_all_strategies (amplitude_threshold : ℚ) (data : MarketData)
    (ind : IndicatorSet) (symbol : String) : Option (List SignalRec) :=
  match data.Close with
  | none => some []
  | some close =>
    match mainTrend close ind.MA60 with
    | none => none
    | some bulls =>
      match detect_macd_signals ind symbol, detect_rsi_signals ind symbol with
      | some r2, some r3 =>
        some (detect_ma_signals amplitude_threshold ind bulls.1 bulls.2 symbol ++
              r2 ++ r3)
      | _, _ => none

/-! ## General lemmas -/

theorem lookup_dictInsert_self {α β : Type} [BEq α] [LawfulBEq α]
    (k : α) (v : β) (d : List (α × β)) :
    (dictInsert k v d).lookup k = some v := by
  simp [dictInsert, List.lookup]

theorem lookup_filter_ne {α β : Type} [BEq α] [LawfulBEq α]
    (k c : α) (d : List (α × β)) (h : c ≠ k) :
    (d.filter (fun p => p.1 != k)).lookup c = d.lookup c := by
  induction d with
  | nil => simp
  | cons hd tl ih =>
    by_cases hk : hd.1 = k
    · subst hk
      have hne : (c == hd.1) = false := by
        simp [beq_eq_false_iff_ne, h]
      simp [List.filter, List.lookup, hne, ih]
    · have : (hd.1 != k) = true := by simp [bne_iff_ne, hk]
      by_cases hc : c = hd.1
      · subst hc
        simp [List.filter, this, List.lookup]
      · have hne : (c == hd.1) = false := by
          simp [beq_eq_false_iff_ne, hc]
        simp [List.filter, this, List.lookup, hne, ih]

theorem lookup_dictInsert_ne {α β : Type} [BEq α] [LawfulBEq α]
    (k c : α) (v : β) (d : List (α × β)) (h : c ≠ k) :
    (dictInsert k v d).lookup c = d.lookup c := by
  have hne : (c == k) = false := by simp [beq_eq_false_iff_ne, h]
  simp [dictInsert, List.lookup, hne, lookup_filter_ne k c d h]

theorem cacheWrite_foldl_expiry (src : String) (t : ℚ)
    (l : List (String × QuoteData)) (r : List (String × QuoteData))
    (st : ClientState) :
    ((l.foldl (cacheWriteStep src t) (r, st)).2).cacheExpiry = st.cacheExpiry := by
  induction l generalizing r st with
  | nil => rfl
  | cons hd tl ih =>
    rw [List.foldl_cons]
    exact ih _ _

theorem cacheWrite_foldl_connected (src : String) (t : ℚ)
    (l : List (String × QuoteData)) (r : List (String × QuoteData))
    (st : ClientState) :
    ((l.foldl (cacheWriteStep src t) (r, st)).2).connected = st.connected := by
  induction l generalizing r st with
  | nil => rfl
  | cons hd tl ih =>
    rw [List.foldl_cons]
    exact ih _ _

theorem get_realtime_data_cacheExpiry (st : ClientState) (env : FetchEnv)
    (t : ℚ) (symbols : List String) (fr : Bool) :
    (get_realtime_data st env t symbols fr).state.cacheExpiry = st.cacheExpiry := by
  simp only [get_realtime_data]
  split
  · rfl
  split
  · rfl
  exact cacheWrite_foldl_expiry _ _ _ _ _

/-- A single-symbol call whose symbol has a fresh cache entry returns that
entry straight from cache, leaves the state untouched and makes no provider
call. -/
theorem get_realtime_data_single_hit (st : ClientState) (env : FetchEnv)
    (t1 : ℚ) (s : String) (q : QuoteData) (t0 : ℚ)
    (hq : st.dataCache.lookup (cleanCode s) = some q)
    (ht : st.cacheTime.lookup (cleanCode s) = some t0)
    (hfresh : t1 - t0 < st.cacheExpiry) :
    get_realtime_data st env t1 [s] false = ⟨[(cleanCode s, q)], st, []⟩ := by
  simp [get_realtime_data, partitionCache, cacheStep, hq, ht, hfresh, dictInsert]

/-- Characterization of the provider invocations a `get_realtime_data` call
makes, in terms of its inputs. -/
theorem get_realtime_data_calls (st : ClientState) (env : FetchEnv) (t : ℚ)
    (symbols : List String) (fr : Bool) :
    (get_realtime_data st env t symbols fr).calls =
      (if symbols.isEmpty then [] else
       if (partitionCache st t fr symbols).2.isEmpty then [] else
       let ak := akshareFetch env (partitionCache st t fr symbols).2
       if !ak.2.1 && ak.1.isEmpty && is_connected st env then
         ak.2.2 ++ [ProviderCall.myquant (partitionCache st t fr symbols).2]
       else ak.2.2) := by
  simp only [get_realtime_data]
  split
  · rfl
  split
  · rfl
  dsimp only
  split
  · cases env.myquantResult <;> rfl
  · rfl

/-- Every provider invocation the AKShare leg records is the single primary
call on the needs-fetch batch. -/
theorem akshareFetch_calls_eq (env : FetchEnv) (need : List String) :
    ∀ c ∈ (akshareFetch env need).2.2, c = ProviderCall.akshare need := by
  intro c hc
  unfold akshareFetch at hc
  split at hc
  · split at hc <;> simpa using hc
  · simp at hc

theorem foldl_cacheStep_force (st : ClientState) (t : ℚ) (syms : List String)
    (acc : List (String × QuoteData) × List String) :
    syms.foldl (cacheStep st t true) acc = (acc.1, acc.2 ++ syms) := by
  induction syms generalizing acc with
  | nil => simp
  | cons hd tl ih => simp [cacheStep, ih]

/-- With `force_refresh = true` the cache partition bypasses every cache read:
no symbol is served from cache and every requested symbol is needs-fetch. -/
theorem partitionCache_force (st : ClientState) (t : ℚ) (symbols : List String) :
    partitionCache st t true symbols = ([], symbols) := by
  simpa [partitionCache] using foldl_cacheStep_force st t symbols ([], [])

/-- Invariant of the write-back loop: every record in the merged result that
entered via the loop is stored in `data_cache` with fetch time `t`. -/
theorem cacheWrite_lookup (src : String) (t : ℚ)
    (l : List (String × QuoteData)) (r : List (String × QuoteData))
    (st : ClientState)
    (hinv : ∀ code q, r.lookup code = some q →
        st.dataCache.lookup code = some q ∧ st.cacheTime.lookup code = some t) :
    ∀ code q, (l.foldl (cacheWriteStep src t) (r, st)).1.lookup code = some q →
        (l.foldl (cacheWriteStep src t) (r, st)).2.dataCache.lookup code = some q ∧
        (l.foldl (cacheWriteStep src t) (r, st)).2.cacheTime.lookup code = some t := by
  induction l generalizing r st with
  | nil => simpa using hinv
  | cons hd tl ih =>
    simp only [List.foldl_cons]
    apply ih
    intro code q hlook
    simp only [cacheWriteStep] at hlook ⊢
    by_cases hcode : code = hd.1
    · subst hcode
      rw [lookup_dictInsert_self] at hlook
      cases hlook
      exact ⟨lookup_dictInsert_self _ _ _, lookup_dictInsert_self _ _ _⟩
    · rw [lookup_dictInsert_ne _ _ _ _ hcode] at hlook
      rcases hinv code q hlook with ⟨hl, hr⟩
      rw [lookup_dictInsert_ne _ _ _ _ hcode, lookup_dictInsert_ne _ _ _ _ hcode]
      exact ⟨hl, hr⟩

/-- When the cache partition serves nothing from cache, every record in the
result of `get_realtime_data` was fetched and written back to the cache with
fetch time `t` (the call time). -/
theorem get_realtime_data_write (st : ClientState) (env : FetchEnv) (t : ℚ)
    (symbols : List String) (fr : Bool)
    (hpart : (partitionCache st t fr symbols).1 = [])
    (code : String) (q : QuoteData)
    (hlook : (get_realtime_data st env t symbols fr).result.lookup code = some q) :
    (get_realtime_data st env t symbols fr).state.dataCache.lookup code = some q ∧
    (get_realtime_data st env t symbols fr).state.cacheTime.lookup code = some t := by
  by_cases h1 : symbols.isEmpty
  · simp [get_realtime_data, h1] at hlook
  by_cases h2 : (partitionCache st t fr symbols).2.isEmpty
  · simp [get_realtime_data, h1, h2, hpart] at hlook
  · revert hlook
    simp only [get_realtime_data, h1, h2, if_false, Bool.false_eq_true]
    rw [hpart]
    intro hlook
    exact cacheWrite_lookup _ _ _ _ _ (by intro c q h; simp at h) code q hlook

/-! ## Claim theorems: quote service -/

/-- C1: for every symbol `s`, if the quote service `get_realtime_data` is
called twice within `cache_expiry = 5` seconds with `force_refresh = false`,
and the first call stored a quote for `s` in the cache (the post-call state
holds quote `q` for `s` with fetch time `t0`, the first call's time), then the
second call returns the identical quote value for `s` and invokes the provider
chain zero times: neither the AKShare primary fetch nor the MyQuant fallback
fetch runs. -/
theorem C1_cache_freshness (st0 : ClientState) (env1 env2 : FetchEnv)
    (t0 t1 : ℚ) (s : String) (q : QuoteData)
    (hexp : st0.cacheExpiry = 5)
    (hq : (get_realtime_data st0 env1 t0 [s] false).state.dataCache.lookup
            (cleanCode s) = some q)
    (ht : (get_realtime_data st0 env1 t0 [s] false).state.cacheTime.lookup
            (cleanCode s) = some t0)
    (hfresh : t1 - t0 < 5) :
    get_realtime_data (get_realtime_data st0 env1 t0 [s] false).state env2 t1 [s] false
      = ⟨[(cleanCode s, q)], (get_realtime_data st0 env1 t0 [s] false).state, []⟩ := by
  apply get_realtime_data_single_hit _ _ _ _ _ t0 hq ht
  rw [get_realtime_data_cacheExpiry, hexp]
  exact hfresh

/-- C2: in one `get_realtime_data` call, the MyQuant fallback provider is
invoked only if the primary AKShare provider yielded zero usable rows for the
needs-fetch batch (module unavailable, call raised, or empty return) and the
gateway reports connected (`is_connected` true); if the primary returns a
non-empty result, the fallback is never invoked in that call. -/
theorem C2_fallback_ordering (st : ClientState) (env : FetchEnv) (t : ℚ)
    (symbols : List String) (fr : Bool) :
    (callsMyquant (get_realtime_data st env t symbols fr).calls = true →
        primaryRows env = [] ∧ is_connected st env = true) ∧
    (primaryRows env ≠ [] →
        callsMyquant (get_realtime_data st env t symbols fr).calls = false) := by
  have hc := get_realtime_data_calls st env t symbols fr
  by_cases h1 : symbols.isEmpty
  · rw [if_pos h1] at hc
    simp [hc, callsMyquant]
  rw [if_neg h1] at hc
  by_cases h2 : (partitionCache st t fr symbols).2.isEmpty
  · rw [if_pos h2] at hc
    simp [hc, callsMyquant]
  rw [if_neg h2] at hc
  rcases env with ⟨aksA, mqA, aksR, mqR⟩
  cases aksA
  · -- AKShare module unavailable: primary yields nothing
    simp only [akshareFetch] at hc
    simp at hc
    by_cases hconn : is_connected st ⟨false, mqA, aksR, mqR⟩ = true
    · rw [if_pos hconn] at hc
      simp [hc, callsMyquant, primaryRows, hconn]
    · rw [if_neg hconn] at hc
      simp [hc, callsMyquant, primaryRows]
  · rcases aksR with _ | d
    · -- the primary call raised: zero usable rows
      simp only [akshareFetch] at hc
      simp at hc
      by_cases hconn : is_connected st ⟨true, mqA, none, mqR⟩ = true
      · rw [if_pos hconn] at hc
        simp [hc, callsMyquant, primaryRows, hconn]
      · rw [if_neg hconn] at hc
        simp [hc, callsMyquant, primaryRows]
    · -- the primary call returned rows d
      simp only [akshareFetch] at hc
      by_cases hd : d.isEmpty
      · have hdnil : d = [] := by simpa [List.isEmpty_iff] using hd
        subst hdnil
        simp at hc
        by_cases hconn : is_connected st ⟨true, mqA, some [], mqR⟩ = true
        · rw [if_pos hconn] at hc
          simp [hc, callsMyquant, primaryRows, hconn]
        · rw [if_neg hconn] at hc
          simp [hc, callsMyquant, primaryRows]
      · -- non-empty primary result: the fallback branch is unreachable
        simp [hd] at hc
        simp [hc, callsMyquant, primaryRows, List.isEmpty_iff.not.mp hd]

/-- Witness for C2 at a concrete input: AKShare unavailable, gateway
connected, so the call goes to the MyQuant fallback, and the theorem's first
implication fires. -/
theorem C2_fallback_ordering_witness :
    primaryRows ⟨false, true, none, some [("600000", ⟨10, 1, 2, "a", ""⟩)]⟩ = [] ∧
    is_connected ⟨true, [], [], 5⟩
      ⟨false, true, none, some [("600000", ⟨10, 1, 2, "a", ""⟩)]⟩ = true :=
  (C2_fallback_ordering ⟨true, [], [], 5⟩
      ⟨false, true, none, some [("600000", ⟨10, 1, 2, "a", ""⟩)]⟩
      0 ["600000"] false).1 (by decide)

/-- C4: calling `get_realtime_data` with `force_refresh = true` treats every
requested symbol as needs-fetch — cache reads are bypassed (the partition
serves nothing from cache and hands the full symbol batch to the provider
chain), the primary is invoked with every requested symbol whenever its module
is available (and the fallback with every requested symbol when the primary
module is unavailable and the gateway is connected), every provider invocation
carries the full requested batch, and every successfully fetched quote is
written back into the cache with its fetch time updated to the call time. -/
theorem C4_force_refresh (st : ClientState) (env : FetchEnv) (t : ℚ)
    (symbols : List String) (hne : symbols ≠ []) :
    partitionCache st t true symbols = ([], symbols) ∧
    (env.akshareAvailable = true →
      ProviderCall.akshare symbols ∈ (get_realtime_data st env t symbols true).calls) ∧
    (env.akshareAvailable = false → is_connected st env = true →
      ProviderCall.myquant symbols ∈ (get_realtime_data st env t symbols true).calls) ∧
    (∀ c ∈ (get_realtime_data st env t symbols true).calls,
      c = ProviderCall.akshare symbols ∨ c = ProviderCall.myquant symbols) ∧
    (∀ code q, (get_realtime_data st env t symbols true).result.lookup code = some q →
      (get_realtime_data st env t symbols true).state.dataCache.lookup code = some q ∧
      (get_realtime_data st env t symbols true).state.cacheTime.lookup code = some t) := by
  have hp := partitionCache_force st t symbols
  have h1 : symbols.isEmpty = false := by simpa [List.isEmpty_iff] using hne
  have hc := get_realtime_data_calls st env t symbols true
  rw [hp] at hc
  simp only [h1, Bool.false_eq_true, if_false] at hc
  refine ⟨hp, ?_, ?_, ?_, ?_⟩
  · intro ha
    rw [hc]
    have h2 : (akshareFetch env symbols).2.2 = [ProviderCall.akshare symbols] := by
      unfold akshareFetch
      rw [if_pos ha]
      cases env.akshareResult <;> rfl
    split <;> simp [h2]
  · intro ha hconn
    rw [hc]
    have h2 : akshareFetch env symbols = ([], false, []) := by
      unfold akshareFetch
      rw [if_neg (by simp [ha])]
    simp [h2, hconn]
  · intro c hmem
    rw [hc] at hmem
    split at hmem
    · rcases List.mem_append.mp hmem with h | h
      · exact Or.inl (akshareFetch_calls_eq env symbols c h)
      · simp at h
        exact Or.inr h
    · exact Or.inl (akshareFetch_calls_eq env symbols c hmem)
  · intro code q hlook
    exact get_realtime_data_write st env t symbols true (by rw [hp]) code q hlook

/-- Witness for C4 at a concrete input: the cache already holds a fresh entry
for 600000 at the call time, yet force-refresh hands the full batch to the
primary provider, and the fetched quote is written back with the call time. -/
theorem C4_force_refresh_witness :
    (["600000.SH"] : List String) ≠ [] ∧
    (partitionCache ⟨true, [("600000", ⟨9, 1, 2, "a", "AKShare"⟩)], [("600000", 10)], 5⟩
        10 true ["600000.SH"] = ([], ["600000.SH"]) ∧
     (FetchEnv.akshareAvailable ⟨true, true, some [("600000", ⟨10, 1, 2, "b", ""⟩)], none⟩ = true →
       ProviderCall.akshare ["600000.SH"] ∈
         (get_realtime_data ⟨true, [("600000", ⟨9, 1, 2, "a", "AKShare"⟩)], [("600000", 10)], 5⟩
           ⟨true, true, some [("600000", ⟨10, 1, 2, "b", ""⟩)], none⟩ 10 ["600000.SH"] true).calls) ∧
     (FetchEnv.akshareAvailable ⟨true, true, some [("600000", ⟨10, 1, 2, "b", ""⟩)], none⟩ = false →
       is_connected ⟨true, [("600000", ⟨9, 1, 2, "a", "AKShare"⟩)], [("600000", 10)], 5⟩
         ⟨true, true, some [("600000", ⟨10, 1, 2, "b", ""⟩)], none⟩ = true →
       ProviderCall.myquant ["600000.SH"] ∈
         (get_realtime_data ⟨true, [("600000", ⟨9, 1, 2, "a", "AKShare"⟩)], [("600000", 10)], 5⟩
           ⟨true, true, some [("600000", ⟨10, 1, 2, "b", ""⟩)], none⟩ 10 ["600000.SH"] true).calls) ∧
     (∀ c ∈ (get_realtime_data ⟨true, [("600000", ⟨9, 1, 2, "a", "AKShare"⟩)], [("600000", 10)], 5⟩
           ⟨true, true, some [("600000", ⟨10, 1, 2, "b", ""⟩)], none⟩ 10 ["600000.SH"] true).calls,
       c = ProviderCall.akshare ["600000.SH"] ∨ c = ProviderCall.myquant ["600000.SH"]) ∧
     (∀ code q,
       (get_realtime_data ⟨true, [("600000", ⟨9, 1, 2, "a", "AKShare"⟩)], [("600000", 10)], 5⟩
           ⟨true, true, some [("600000", ⟨10, 1, 2, "b", ""⟩)], none⟩ 10 ["600000.SH"] true).result.lookup
           code = some q →
       (get_realtime_data ⟨true, [("600000", ⟨9, 1, 2, "a", "AKShare"⟩)], [("600000", 10)], 5⟩
           ⟨true, true, some [("600000", ⟨10, 1, 2, "b", ""⟩)], none⟩ 10 ["600000.SH"] true).state.dataCache.lookup
           code = some q ∧
       (get_realtime_data ⟨true, [("600000", ⟨9, 1, 2, "a", "AKShare"⟩)], [("600000", 10)], 5⟩
           ⟨true, true, some [("600000", ⟨10, 1, 2, "b", ""⟩)], none⟩ 10 ["600000.SH"] true).state.cacheTime.lookup
           code = some (10 : ℚ))) :=
  ⟨by decide,
   C4_force_refresh ⟨true, [("600000", ⟨9, 1, 2, "a", "AKShare"⟩)], [("600000", 10)], 5⟩
     ⟨true, true, some [("600000", ⟨10, 1, 2, "b", ""⟩)], none⟩ 10 ["600000.SH"] (by decide)⟩

/-- Witness for C1 at a concrete input: client starts with an empty cache,
AKShare returns a quote for 600000 at time 0, and the second call at time 3
serves it from cache with no provider invocation. -/
theorem C1_cache_freshness_witness :
    get_realtime_data
        (get_realtime_data ⟨true, [], [], 5⟩
          ⟨true, true, some [("600000", ⟨10, 1, 2, "a", ""⟩)], none⟩
          0 ["600000.SH"] false).state
        ⟨true, true, none, none⟩ 3 ["600000.SH"] false
      = ⟨[(cleanCode "600000.SH", ⟨10, 1, 2, "a", "AKShare"⟩)],
         (get_realtime_data ⟨true, [], [], 5⟩
           ⟨true, true, some [("600000", ⟨10, 1, 2, "a", ""⟩)], none⟩
           0 ["600000.SH"] false).state, []⟩ :=
  C1_cache_freshness ⟨true, [], [], 5⟩
    ⟨true, true, some [("600000", ⟨10, 1, 2, "a", ""⟩)], none⟩
    ⟨true, true, none, none⟩ 0 3 "600000.SH" ⟨10, 1, 2, "a", "AKShare"⟩
    rfl (by decide) (by decide) (by norm_num)

/-! ## Claim theorems: bounded task runner and gateway connection -/

/-- C3 counterexample: the claim says the runner returns `(true, nil, error)`
when the operation raises within the timeout, but `test_api_call` returns a
pair whose success flag is False in that case — here an operation raising
error 5 after 1 second against a 2-second timeout. -/
theorem C3_bounded_runner_counterexample :
    test_api_call (⟨1, OpOutcome.raises 5⟩ : Operation ℕ ℕ) 2 =
      (false, TAPayload.err 5) ∧
    (test_api_call (⟨1, OpOutcome.raises 5⟩ : Operation ℕ ℕ) 2).1 ≠ true := by
  constructor
  · simp [test_api_call]
  · intro h
    simp [test_api_call] at h

/-- C3 (amended): `test_api_call` run with an operation and a timeout returns
the pair `(true, result)` when the operation finishes within the timeout
without raising, `(false, error)` when the operation raises within the
timeout, and `(false, nil)` when the operation does not finish within the
timeout. -/
theorem C3_bounded_runner (α ε : Type) (d T : ℚ) (v : α) (e : ε) :
    (d ≤ T →
      test_api_call (⟨d, OpOutcome.ok v⟩ : Operation α ε) T =
        (true, TAPayload.value v)) ∧
    (d ≤ T →
      test_api_call (⟨d, OpOutcome.raises e⟩ : Operation α ε) T =
        (false, TAPayload.err e)) ∧
    (¬d ≤ T → ∀ o : OpOutcome α ε,
      test_api_call (⟨d, o⟩ : Operation α ε) T = (false, TAPayload.none)) := by
  refine ⟨fun h => ?_, fun h => ?_, fun h o => ?_⟩ <;> simp [test_api_call, h]

/-- Witness for C3 at concrete inputs: a 1-second operation against a
2-second timeout (finishing and raising) and a 3-second operation against a
2-second timeout (timing out). -/
theorem C3_bounded_runner_witness :
    ((1 : ℚ) ≤ 2 ∧
      test_api_call (⟨1, OpOutcome.ok 7⟩ : Operation ℕ ℕ) 2 =
        (true, TAPayload.value 7) ∧
      test_api_call (⟨1, OpOutcome.raises 5⟩ : Operation ℕ ℕ) 2 =
        (false, TAPayload.err 5)) ∧
    (¬(3 : ℚ) ≤ 2 ∧
      test_api_call (⟨3, OpOutcome.ok 7⟩ : Operation ℕ ℕ) 2 =
        (false, TAPayload.none)) :=
  ⟨⟨by norm_num, (C3_bounded_runner ℕ ℕ 1 2 7 5).1 (by norm_num),
    (C3_bounded_runner ℕ ℕ 1 2 7 5).2.1 (by norm_num)⟩,
   ⟨by norm_num, (C3_bounded_runner ℕ ℕ 3 2 7 5).2.2 (by norm_num) _⟩⟩

/-- `self.connected` can be true after `connect()` only when the module is
unavailable (the early return leaves the old flag in place) or the worker
signalled an explicit success. -/
theorem connect_connected_imp (p : Bool) (e : ConnectEnv)
    (h : is_connected_after (connect p e) e = true) :
    connection_success e = true := by
  unfold is_connected_after connect at h
  by_cases ha : e.myquantAvailable = true
  · rw [if_neg (by simp [ha])] at h
    by_cases hs : connection_success e = true
    · exact hs
    · rw [if_neg hs] at h
      by_cases ht : (4 : ℚ) ≤ e.workerDuration <;> simp [ht] at h
  · have : e.myquantAvailable = false := by
      cases hv : e.myquantAvailable
      · rfl
      · exact absurd hv ha
    simp [this] at h

/-- C9: `connect()` with all probe steps failing (canary quote not proving
connectivity and cash probe failing) returns false and the gateway state is
failed: `is_connected()` afterwards is false, the reason is the distinct
timed-out reason exactly when the 4-second overall deadline fired and the
probe-failure reason otherwise, and — in general — the state is never
connected without an explicit success signal from the canary-quote step or
the cash-balance step. -/
theorem C9_connect_failure (prev : Bool) (env : ConnectEnv)
    (havail : env.myquantAvailable = true)
    (hcanary : canaryOk env = false)
    (hcash : env.cashStep = false) :
    (connect prev env).result = false ∧
    (connect prev env).connected = false ∧
    is_connected_after (connect prev env) env = false ∧
    ((connect prev env).reason = ConnectReason.timedOut ↔ 4 ≤ env.workerDuration) ∧
    ((connect prev env).reason = ConnectReason.timedOut ∨
      (connect prev env).reason = ConnectReason.probeFailed) ∧
    ConnectReason.timedOut ≠ ConnectReason.probeFailed ∧
    (∀ p e, is_connected_after (connect p e) e = true → connection_success e = true) := by
  have hcs : connection_success env = false := by
    simp [connection_success, hcanary, hcash]
  by_cases ht : (4 : ℚ) ≤ env.workerDuration <;>
    refine ⟨?_, ?_, ?_, ?_, ?_, by simp, fun p e h => connect_connected_imp p e h⟩ <;>
    simp [connect, havail, hcs, is_connected_after, ht]

/-- Witness for C9 at a concrete input: module available, token set, canary
and cash probes failing, worker hung for 5 seconds — connect fails with the
timed-out reason. -/
theorem C9_connect_failure_witness :
    (connect true ⟨true, true, true, false, none, false, 5⟩).result = false ∧
    (connect true ⟨true, true, true, false, none, false, 5⟩).connected = false ∧
    is_connected_after (connect true ⟨true, true, true, false, none, false, 5⟩)
      ⟨true, true, true, false, none, false, 5⟩ = false ∧
    ((connect true ⟨true, true, true, false, none, false, 5⟩).reason =
        ConnectReason.timedOut ↔
      (4 : ℚ) ≤ (⟨true, true, true, false, none, false, 5⟩ : ConnectEnv).workerDuration) ∧
    ((connect true ⟨true, true, true, false, none, false, 5⟩).reason =
        ConnectReason.timedOut ∨
      (connect true ⟨true, true, true, false, none, false, 5⟩).reason =
        ConnectReason.probeFailed) ∧
    ConnectReason.timedOut ≠ ConnectReason.probeFailed ∧
    (∀ p e, is_connected_after (connect p e) e = true → connection_success e = true) :=
  C9_connect_failure true ⟨true, true, true, false, none, false, 5⟩ rfl rfl rfl

/-! ## Claim theorems: signal engine -/

/-- Unfolding of `detect_ma_turning_point` on a series with explicit last
three points. -/
theorem detect_ma_turning_point_lastThree (thr : ℚ) (pre : List ℚ) (a b c : ℚ)
    (dir : MADirection) :
    detect_ma_turning_point thr (pre ++ [a, b, c]) dir =
      (if (if b ≠ 0 then |(c - b) / b| else 0) ≤ thr then (false, -1)
       else if dir = MADirection.bottom ∧ (c - a) / 2 < 0 ∧ c - b > 0 then
         (true, ((pre ++ [a, b, c]).length : Int) - 1)
       else if dir = MADirection.top ∧ (c - a) / 2 > 0 ∧ c - b < 0 then
         (true, ((pre ++ [a, b, c]).length : Int) - 1)
       else (false, -1)) := by
  have hlen : (pre ++ [a, b, c]).length = pre.length + 3 := by simp
  have hlt : ¬(pre ++ [a, b, c]).length < 3 := by rw [hlen]; omega
  have hdrop : (pre ++ [a, b, c]).drop ((pre ++ [a, b, c]).length - 3) = [a, b, c] := by
    rw [hlen]
    have h3 : pre.length + 3 - 3 = pre.length := by omega
    rw [h3]
    exact List.drop_left pre [a, b, c]
  rw [detect_ma_turning_point, if_neg hlt, hdrop]
  rfl

/-- C5 counterexample: with default threshold 0.005, MA5 series ending in
`[10, 9, 10.5]`, bullish trend (close 100 above MA60 1), the claim's
prior-step first difference is negative (9 − 10 < 0), the last step positive
and above threshold, so the claim predicts a ma5 bottom-turn — but the
engine's evaluation fires nothing, because the code tests `np.gradient`'s
central difference (10.5 − 10)/2 ≥ 0 instead of the prior first difference. -/
theorem C5_turning_point_counterexample :
    run_all_strategies (1 / 200) ⟨some [100]⟩
        ⟨some [10, 10, 10, 10, 9, 21 / 2], none, none, some [1], none, none, none⟩
        "s" = some [] ∧
    ((9 : ℚ) - 10 < 0 ∧ (21 / 2 : ℚ) - 9 > 0 ∧
      |((21 / 2 : ℚ) - 9) / 9| > 1 / 200 ∧ (100 : ℚ) > 1) := by
  have hamp : (if (9 : ℚ) ≠ 0 then |((21 / 2 : ℚ) - 9) / 9| else 0) = 1 / 6 := by
    rw [if_pos (by norm_num), show ((21 / 2 : ℚ) - 9) / 9 = 1 / 6 by norm_num,
      abs_of_pos (by norm_num)]
  have hdet : detect_ma_turning_point (1 / 200) [10, 10, 10, 10, 9, 21 / 2]
      MADirection.bottom = (false, -1) := by
    have h := detect_ma_turning_point_lastThree (1 / 200) [10, 10, 10] 10 9 (21 / 2)
      MADirection.bottom
    simp only [List.cons_append, List.nil_append] at h
    rw [h, hamp, if_neg (by norm_num), if_neg ?hmid, if_neg ?htop]
    case hmid =>
      rintro ⟨-, h2, -⟩
      norm_num at h2
    case htop =>
      rintro ⟨h1, -⟩
      exact absurd h1 (by decide)
  have hma : detect_ma_signals (1 / 200)
      ⟨some [10, 10, 10, 10, 9, 21 / 2], none, none, some [1], none, none, none⟩
      true false "s" = [] := by
    simp [detect_ma_signals, ma_periods, maPeriodSignals, getMA, maDirSignal, hdet,
      -one_div]
  constructor
  · have htrend : mainTrend [100] (some [1]) = some (true, false) := by decide
    have hmacd : detect_macd_signals
        ⟨some [10, 10, 10, 10, 9, 21 / 2], none, none, some [1], none, none, none⟩
        "s" = some [] := rfl
    have hrsi : detect_rsi_signals
        ⟨some [10, 10, 10, 10, 9, 21 / 2], none, none, some [1], none, none, none⟩
        "s" = some [] := rfl
    rw [run_all_strategies]
    dsimp only
    rw [htrend, hmacd, hrsi]
    dsimp only
    rw [hma]
    rfl
  · refine ⟨by norm_num, by norm_num, ?_, by norm_num⟩
    rw [show ((21 / 2 : ℚ) - 9) / 9 = 1 / 6 by norm_num, abs_of_pos (by norm_num)]
    norm_num

/-- C5 (amended): for each MA window, looking only at the last three points
`a, b, c` of the series, a bottom turning point fires iff the relative
magnitude of the last step `|c − b| / b` (taken as 0 when `b = 0`) exceeds
the amplitude threshold (default 0.005) and the last two `np.gradient`
values have the falling-to-rising pattern — i.e. the *central difference*
`(c − a)/2` is negative (not the prior first difference `b − a`) and the last
difference `c − b` is positive — with the firing index the last index; the
top turn is the mirror sign pattern; at or below the threshold nothing fires;
and the bottom direction is attempted only while the dominant trend is
bullish, the top direction only while it is bearish. -/
theorem C5_turning_point (thr : ℚ) (pre : List ℚ) (a b c : ℚ) :
    (detect_ma_turning_point thr (pre ++ [a, b, c]) MADirection.bottom =
      (if (if b ≠ 0 then |(c - b) / b| else 0) > thr ∧ (c - a) / 2 < 0 ∧ c - b > 0
       then (true, ((pre ++ [a, b, c]).length : Int) - 1) else (false, -1))) ∧
    (detect_ma_turning_point thr (pre ++ [a, b, c]) MADirection.top =
      (if (if b ≠ 0 then |(c - b) / b| else 0) > thr ∧ (c - a) / 2 > 0 ∧ c - b < 0
       then (true, ((pre ++ [a, b, c]).length : Int) - 1) else (false, -1))) ∧
    (∀ (series : Series) (bear : Bool) (symbol : String) (period : Nat),
      maDirSignal thr series false bear symbol period MADirection.bottom = []) ∧
    (∀ (series : Series) (bull : Bool) (symbol : String) (period : Nat),
      maDirSignal thr series bull false symbol period MADirection.top = []) := by
  refine ⟨?_, ?_, ?_, ?_⟩
  · rw [detect_ma_turning_point_lastThree]
    by_cases hamp : (if b ≠ 0 then |(c - b) / b| else 0) ≤ thr
    · rw [if_pos hamp, if_neg]
      rintro ⟨h1, -⟩
      exact absurd hamp (not_le.mpr h1)
    · rw [if_neg hamp]
      by_cases hs : (c - a) / 2 < 0 ∧ c - b > 0
      · rw [if_pos ⟨rfl, hs⟩, if_pos ⟨not_le.mp hamp, hs⟩]
      · rw [if_neg (fun h => hs h.2), if_neg (by rintro ⟨h1, -⟩; cases h1),
          if_neg (fun h => hs h.2)]
  · rw [detect_ma_turning_point_lastThree]
    by_cases hamp : (if b ≠ 0 then |(c - b) / b| else 0) ≤ thr
    · rw [if_pos hamp, if_neg]
      rintro ⟨h1, -⟩
      exact absurd hamp (not_le.mpr h1)
    · rw [if_neg hamp]
      by_cases hs : (c - a) / 2 > 0 ∧ c - b < 0
      · rw [if_neg (by rintro ⟨h1, -⟩; cases h1), if_pos ⟨rfl, hs⟩,
          if_pos ⟨not_le.mp hamp, hs⟩]
      · rw [if_neg (by rintro ⟨h1, -⟩; cases h1), if_neg (fun h => hs h.2),
          if_neg (fun h => hs h.2)]
  · intro series bear symbol period
    simp [maDirSignal]
  · intro series bull symbol period
    simp [maDirSignal]

/-- C6 counterexample: for the two-bar MACD−Signal difference sequence
−0.1 → +0.1 the engine's evaluation yields no signal at all — the MACD rule
requires at least three bars (`len(macd) < 3` returns early) — so the claim's
"exactly one golden cross" fails. -/
theorem C6_macd_cross_counterexample :
    run_all_strategies (1 / 200) ⟨some [1]⟩
        ⟨none, none, none, none, some [-1 / 10, 1 / 10], some [0, 0], none⟩ "s" =
      some [] ∧
    ((-1 / 10 : ℚ) - 0 ≤ 0 ∧ (1 / 10 : ℚ) - 0 > 0) := by
  constructor
  · decide
  · constructor <;> norm_num

/-- C6 (amended): for a MACD−Signal pair with at least three bars whose
difference at the last two bars transitions from ≤ 0 (such as −0.1) to > 0
(such as +0.1), the engine's evaluation yields exactly one
`macd_golden_cross` signal at the last index; a transition from ≥ 0 to < 0
yields exactly one `macd_death_cross`; with only two bars the MACD rule is
disabled and fires nothing. -/
theorem C6_macd_cross (thr : ℚ) (symbol : String) (close macd signal : Series)
    (m1 s1 m2 s2 : ℚ)
    (hlen : 3 ≤ macd.length)
    (hm1 : ilocLast macd = some m1) (hs1 : ilocLast signal = some s1)
    (hm2 : ilocPrev macd = some m2) (hs2 : ilocPrev signal = some s2) :
    (m2 - s2 ≤ 0 → m1 - s1 > 0 →
      run_all_strategies thr ⟨some close⟩
          ⟨none, none, none, none, some macd, some signal, none⟩ symbol =
        some [(symbol, "macd_golden_cross", (macd.length : Int) - 1,
               labelScore "macd_golden_cross")]) ∧
    (m2 - s2 ≥ 0 → m1 - s1 < 0 →
      run_all_strategies thr ⟨some close⟩
          ⟨none, none, none, none, some macd, some signal, none⟩ symbol =
        some [(symbol, "macd_death_cross", (macd.length : Int) - 1,
               labelScore "macd_death_cross")]) := by
  have hma : detect_ma_signals thr
      ⟨none, none, none, none, some macd, some signal, none⟩ false false symbol =
      [] := rfl
  have hrsi : detect_rsi_signals
      ⟨none, none, none, none, some macd, some signal, none⟩ symbol = some [] := rfl
  constructor
  · intro hg1 hg2
    have hmacd : detect_macd_signals
        ⟨none, none, none, none, some macd, some signal, none⟩ symbol =
        some [(symbol, "macd_golden_cross", (macd.length : Int) - 1,
               labelScore "macd_golden_cross")] := by
      rw [detect_macd_signals]
      dsimp only
      rw [if_neg (by omega), hm1, hs1, hm2, hs2]
      dsimp only
      rw [if_pos ⟨hg1, hg2⟩]
    rw [run_all_strategies]
    dsimp only
    rw [hmacd, hrsi]
    dsimp only
    rw [show mainTrend close none = some (false, false) from rfl]
    dsimp only
    rw [hma]
    rfl
  · intro hd1 hd2
    have hmacd : detect_macd_signals
        ⟨none, none, none, none, some macd, some signal, none⟩ symbol =
        some [(symbol, "macd_death_cross", (macd.length : Int) - 1,
               labelScore "macd_death_cross")] := by
      rw [detect_macd_signals]
      dsimp only
      rw [if_neg (by omega), hm1, hs1, hm2, hs2]
      dsimp only
      rw [if_neg (by rintro ⟨-, h2⟩; exact absurd hd2 (not_lt.mpr (le_of_lt h2))),
        if_pos ⟨hd1, hd2⟩]
    rw [run_all_strategies]
    dsimp only
    rw [hmacd, hrsi]
    dsimp only
    rw [show mainTrend close none = some (false, false) from rfl]
    dsimp only
    rw [hma]
    rfl

/-- Witness for C6 at a concrete input: the three-bar difference sequence
0, −0.1, +0.1 produces exactly the golden-cross signal at index 2. -/
theorem C6_macd_cross_witness :
    ((-1 / 10 : ℚ) - 0 ≤ 0 ∧ (1 / 10 : ℚ) - 0 > 0) ∧
    run_all_strategies (1 / 200) ⟨some [1]⟩
        ⟨none, none, none, none, some [0, -1 / 10, 1 / 10], some [0, 0, 0], none⟩
        "s" =
      some [("s", "macd_golden_cross",
             (([0, -1 / 10, 1 / 10] : Series).length : Int) - 1,
             labelScore "macd_golden_cross")] :=
  ⟨⟨by norm_num, by norm_num⟩,
   (C6_macd_cross (1 / 200) "s" [1] [0, -1 / 10, 1 / 10] [0, 0, 0]
      (1 / 10) 0 (-1 / 10) 0 (by decide) rfl rfl rfl rfl).1
     (by norm_num) (by norm_num)⟩

theorem maDirSignal_name (thr : ℚ) (series : Series) (bull bear : Bool)
    (symbol : String) (period : Nat) (dir : MADirection) :
    ∀ x ∈ maDirSignal thr series bull bear symbol period dir,
      x.2.1 = turnName period dir := by
  intro x hx
  unfold maDirSignal at hx
  split at hx
  · dsimp only at hx
    split at hx
    · rw [List.mem_singleton] at hx
      rw [hx]
    · simp at hx
  · simp at hx

theorem detect_ma_signals_name (thr : ℚ) (ind : IndicatorSet) (bull bear : Bool)
    (symbol : String) :
    ∀ x ∈ detect_ma_signals thr ind bull bear symbol,
      ∃ p ∈ ma_periods, ∃ dir, x.2.1 = turnName p dir := by
  intro x hx
  unfold detect_ma_signals at hx
  rcases List.mem_flatten.mp hx with ⟨l, hl, hxl⟩
  rcases List.mem_map.mp hl with ⟨p, hp, rfl⟩
  unfold maPeriodSignals at hxl
  split at hxl
  · split at hxl
    · rcases List.mem_append.mp hxl with h | h
      · exact ⟨p, hp, MADirection.bottom, maDirSignal_name _ _ _ _ _ _ _ x h⟩
      · exact ⟨p, hp, MADirection.top, maDirSignal_name _ _ _ _ _ _ _ x h⟩
    · simp at hxl
  · simp at hxl

theorem turnName_ne_alignment (p : Nat) (hp : p ∈ ma_periods) (dir : MADirection) :
    turnName p dir ≠ "ma_multi_bull" ∧ turnName p dir ≠ "ma_multi_bear" := by
  fin_cases hp <;> cases dir <;> exact ⟨by decide, by decide⟩

theorem detect_macd_signals_name (ind : IndicatorSet) (symbol : String)
    (r : List SignalRec) (h : detect_macd_signals ind symbol = some r) :
    ∀ x ∈ r, x.2.1 = "macd_golden_cross" ∨ x.2.1 = "macd_death_cross" := by
  intro x hx
  unfold detect_macd_signals at h
  split at h
  · split at h
    · cases h
      simp at hx
    · split at h
      · dsimp only at h
        split at h
        · cases h
          rw [List.mem_singleton] at hx
          rw [hx]
          exact Or.inl rfl
        · split at h
          · cases h
            rw [List.mem_singleton] at hx
            rw [hx]
            exact Or.inr rfl
          · cases h
            simp at hx
      · cases h
  · cases h
    simp at hx

theorem detect_rsi_signals_name (ind : IndicatorSet) (symbol : String)
    (r : List SignalRec) (h : detect_rsi_signals ind symbol = some r) :
    ∀ x ∈ r, x.2.1 = "rsi_overbought" ∨ x.2.1 = "rsi_oversold" := by
  intro x hx
  unfold detect_rsi_signals at h
  split at h
  · split at h
    · cases h
      simp at hx
    · split at h
      · split at h
        · cases h
          rw [List.mem_singleton] at hx
          rw [hx]
          exact Or.inl rfl
        · split at h
          · cases h
            rw [List.mem_singleton] at hx
            rw [hx]
            exact Or.inr rfl
          · cases h
            simp at hx
      · cases h
  · cases h
    simp at hx

/-- C7 counterexample: with MA5 > MA10 > MA20 strictly at the last bar
(3 > 2 > 1), the engine's evaluation appends no alignment signal at all — the
result list is empty — because `run_all_strategies` never invokes
`detect_ma_alignment`. -/
theorem C7_alignment_counterexample :
    run_all_strategies (1 / 200) ⟨some [1]⟩
        ⟨some [3], some [2], some [1], none, none, none, none⟩ "s" = some [] ∧
    ((3 : ℚ) > 2 ∧ (2 : ℚ) > 1) := by
  constructor
  · decide
  · constructor <;> norm_num

/-- C7 (amended): `run_all_strategies` never appends a moving-average
alignment signal — `detect_ma_alignment` is defined but not invoked, so no
result record ever carries the `ma_multi_bull` or `ma_multi_bear` kind — while
the alignment rule itself, as implemented by `detect_ma_alignment`, returns
`ma_multi_bull` at the last bar iff MA5 > MA10 > MA20 strictly, `ma_multi_bear`
iff the reverse strict ordering holds, and no signal otherwise. -/
theorem C7_alignment :
    (∀ (thr : ℚ) (data : MarketData) (ind : IndicatorSet) (symbol : String)
        (res : List SignalRec),
      run_all_strategies thr data ind symbol = some res →
      ∀ x ∈ res, x.2.1 ≠ "ma_multi_bull" ∧ x.2.1 ≠ "ma_multi_bear") ∧
    (∀ (ind : IndicatorSet) (ma5 ma10 ma20 : Series) (a b c : ℚ),
      ind.MA5 = some ma5 → ind.MA10 = some ma10 → ind.MA20 = some ma20 →
      1 ≤ ma5.length → ilocLast ma5 = some a → ilocLast ma10 = some b →
      ilocLast ma20 = some c →
      detect_ma_alignment ind =
        (if a > b ∧ b > c then some (true, "ma_multi_bull", (ma5.length : Int) - 1)
         else if a < b ∧ b < c then
           some (true, "ma_multi_bear", (ma5.length : Int) - 1)
         else some (false, "", -1))) := by
  constructor
  · intro thr data ind symbol res hrun x hx
    unfold run_all_strategies at hrun
    split at hrun
    · cases hrun
      simp at hx
    · split at hrun
      · cases hrun
      · split at hrun
        · cases hrun
          rcases List.mem_append.mp hx with hx1 | hx1
          · rcases List.mem_append.mp hx1 with hx2 | hx2
            · rcases detect_ma_signals_name _ _ _ _ _ x hx2 with ⟨p, hp, dir, hname⟩
              rw [hname]
              exact turnName_ne_alignment p hp dir
            · rename_i heq2 _
              rcases detect_macd_signals_name _ _ _ heq2 x hx2 with h | h <;>
                rw [h] <;> exact ⟨by decide, by decide⟩
          · rename_i heq3
            rcases detect_rsi_signals_name _ _ _ heq3 x hx1 with h | h <;>
              rw [h] <;> exact ⟨by decide, by decide⟩
        · cases hrun
  · intro ind ma5 ma10 ma20 a b c h5 h10 h20 hlen ha hb hc
    unfold detect_ma_alignment
    rw [h5, h10, h20]
    dsimp only
    rw [if_neg (by omega), ha, hb, hc]

/-- Witness for C7 at concrete inputs: the empty evaluation of the
counterexample input carries no alignment kind, and `detect_ma_alignment` on
MA5 = [3], MA10 = [2], MA20 = [1] reports the bull alignment it would have
contributed. -/
theorem C7_alignment_witness :
    (∀ x ∈ ([] : List SignalRec),
      x.2.1 ≠ "ma_multi_bull" ∧ x.2.1 ≠ "ma_multi_bear") ∧
    detect_ma_alignment ⟨some [3], some [2], some [1], none, none, none, none⟩ =
      (if (3 : ℚ) > 2 ∧ (2 : ℚ) > 1 then
         some (true, "ma_multi_bull", (([3] : Series).length : Int) - 1)
       else if (3 : ℚ) < 2 ∧ (2 : ℚ) < 1 then
         some (true, "ma_multi_bear", (([3] : Series).length : Int) - 1)
       else some (false, "", -1)) :=
  ⟨C7_alignment.1 (1 / 200) ⟨some [1]⟩
      ⟨some [3], some [2], some [1], none, none, none, none⟩ "s" []
      (by decide),
   C7_alignment.2 ⟨some [3], some [2], some [1], none, none, none, none⟩
      [3] [2] [1] 3 2 1 rfl rfl rfl (by decide) rfl rfl rfl⟩

/-! ## Claim theorems: MyQuant fallback internals -/

/-- C8: the MyQuant fallback derives change-percent from
`(price − baseline)/baseline` (expressed in percent, rounded to two
decimals), where the baseline is the prior trading day's close from the dated
history query; only when that query returns empty does the lookup widen to
the last three sessions and use the second-most-recent close; and whenever no
positive baseline close is obtainable (query raised, empty widening, short
widening, non-positive close, or non-positive price) the change-percent is
reported as 0 rather than left undefined. -/
theorem C8_change_pct (env : HistEnv) (p : ℚ) :
    (∀ hist c, env.histYesterday = some hist → hist ≠ [] →
      hist.getLast? = some c → c > 0 → p > 0 →
      compute_change_pct env p = round2 ((p - c) / c * 100)) ∧
    (∀ histN c, env.histYesterday = some [] → env.histN3 = some histN →
      2 ≤ histN.length → histN.dropLast.getLast? = some c → c > 0 → p > 0 →
      compute_change_pct env p = round2 ((p - c) / c * 100)) ∧
    (env.histYesterday = none → compute_change_pct env p = 0) ∧
    (∀ hist c, env.histYesterday = some hist → hist ≠ [] →
      hist.getLast? = some c → ¬(c > 0 ∧ p > 0) →
      compute_change_pct env p = 0) ∧
    (env.histYesterday = some [] → env.histN3 = none →
      compute_change_pct env p = 0) ∧
    (∀ histN, env.histYesterday = some [] → env.histN3 = some histN →
      histN.length < 2 → compute_change_pct env p = 0) ∧
    (∀ histN c, env.histYesterday = some [] → env.histN3 = some histN →
      2 ≤ histN.length → histN.dropLast.getLast? = some c → ¬(c > 0 ∧ p > 0) →
      compute_change_pct env p = 0) := by
  refine ⟨?_, ?_, ?_, ?_, ?_, ?_, ?_⟩
  · intro hist c hy hne hc hcp hpp
    unfold compute_change_pct
    rw [hy]
    dsimp only
    rw [if_pos (List.length_pos.mpr hne), hc]
    dsimp only
    rw [if_pos ⟨hcp, hpp⟩]
  · intro histN c hy hn hlen hc hcp hpp
    unfold compute_change_pct
    rw [hy]
    dsimp only
    rw [if_neg (by simp), hn]
    dsimp only
    rw [if_pos hlen, hc]
    dsimp only
    rw [if_pos ⟨hcp, hpp⟩]
  · intro hy
    unfold compute_change_pct
    rw [hy]
  · intro hist c hy hne hc hnpos
    unfold compute_change_pct
    rw [hy]
    dsimp only
    rw [if_pos (List.length_pos.mpr hne), hc]
    dsimp only
    rw [if_neg hnpos]
  · intro hy hn
    unfold compute_change_pct
    rw [hy]
    dsimp only
    rw [if_neg (by simp), hn]
  · intro histN hy hn hlen
    unfold compute_change_pct
    rw [hy]
    dsimp only
    rw [if_neg (by simp), hn]
    dsimp only
    rw [if_neg (by omega)]
  · intro histN c hy hn hlen hc hnpos
    unfold compute_change_pct
    rw [hy]
    dsimp only
    rw [if_neg (by simp), hn]
    dsimp only
    rw [if_pos hlen, hc]
    dsimp only
    rw [if_neg hnpos]

/-- Witness for C8 at concrete inputs: a dated query answering close 8 with
price 10, the widening path with closes [7, 8, 9] using the second-most-recent
close 8, and the no-baseline path reporting 0. -/
theorem C8_change_pct_witness :
    compute_change_pct ⟨some [8], none⟩ 10 = round2 ((10 - 8) / 8 * 100) ∧
    compute_change_pct ⟨some [], some [7, 8, 9]⟩ 10 =
      round2 ((10 - 8) / 8 * 100) ∧
    compute_change_pct ⟨none, none⟩ 10 = 0 :=
  ⟨(C8_change_pct ⟨some [8], none⟩ 10).1 [8] 8 rfl (by decide) rfl
      (by norm_num) (by norm_num),
   (C8_change_pct ⟨some [], some [7, 8, 9]⟩ 10).2.1 [7, 8, 9] 8 rfl rfl
      (by decide) rfl (by norm_num) (by norm_num),
   (C8_change_pct ⟨none, none⟩ 10).2.2.1 rfl⟩

theorem cleanCode_eq_self (code : String)
    (h : code.data.all Char.isDigit = true) : cleanCode code = code := by
  rcases code with ⟨l⟩
  unfold cleanCode
  congr 1
  rw [List.takeWhile_eq_self_iff]
  intro x hx
  have hd := List.all_eq_true.mp h x hx
  rw [bne_iff_ne]
  intro heq
  rw [heq] at hd
  exact absurd hd (by decide)

/-- C10: in the MyQuant fallback's symbol normalization, every 6-digit
numeric code starting with "12" maps to the Shanghai `SHSE.` symbol — the
Shanghai list is tested first even though "12" sits in both start lists — and
a 6-digit numeric code matching neither start list is silently skipped
(`none`, no error). -/
theorem C10_symbol_normalization (code : String)
    (h6 : code.data.length = 6) (hdig : code.data.all Char.isDigit = true) :
    (strStarts code "12" = true →
      gm_symbol_of_code code = some ("SHSE." ++ code)) ∧
    (shse_starts.all (fun p => !strStarts code p) = true →
      szse_starts.all (fun p => !strStarts code p) = true →
      gm_symbol_of_code code = none) ∧
    ("12" ∈ shse_starts ∧ "12" ∈ szse_starts) := by
  have hcc := cleanCode_eq_self code hdig
  refine ⟨?_, ?_, by decide, by decide⟩
  · intro h12
    unfold gm_symbol_of_code
    dsimp only
    rw [hcc, if_pos ⟨h6, hdig⟩, if_pos (List.any_eq_true.mpr ⟨"12", by decide, h12⟩)]
  · intro hsh hsz
    unfold gm_symbol_of_code
    dsimp only
    rw [hcc, if_pos ⟨h6, hdig⟩, if_neg ?hsh, if_neg ?hsz]
    case hsh =>
      intro hany
      rcases List.any_eq_true.mp hany with ⟨pr, hmem, hpr⟩
      have hall := List.all_eq_true.mp hsh pr hmem
      rw [hpr] at hall
      exact absurd hall (by decide)
    case hsz =>
      intro hany
      rcases List.any_eq_true.mp hany with ⟨pr, hmem, hpr⟩
      have hall := List.all_eq_true.mp hsz pr hmem
      rw [hpr] at hall
      exact absurd hall (by decide)

/-- Witness for C10 at concrete inputs: "120001" is mapped to SHSE.120001
and "990000" (matching neither list) is skipped. -/
theorem C10_symbol_normalization_witness :
    (strStarts "120001" "12" = true ∧
      gm_symbol_of_code "120001" = some ("SHSE." ++ "120001")) ∧
    gm_symbol_of_code "990000" = none :=
  ⟨⟨by decide,
    (C10_symbol_normalization "120001" (by decide) (by decide)).1 (by decide)⟩,
   (C10_symbol_normalization "990000" (by decide) (by decide)).2.1
     (by decide) (by decide)⟩

end ShareCode
